import Mathlib

/-!
Shallow embedding of the slack-notification-api request handlers.

The repository has two near-duplicate handler variants:
* the richer variant (src/unnamed/part_000), whose error bodies are
  `{category, code, message}` and which maps Slack error codes through
  `mapSlackError`;
* the plain variant (src/modules/sendSlackNotification.ts), whose error
  bodies are `{error, details?, slack_error?}`.

JavaScript values flowing through the handlers are modelled by `Json`;
truthiness, property lookup and the `?? "unknown"` coalescing are modelled
explicitly.  The JS regex replace in `markdownToSlackMrkdwn` is modelled by
a leftmost scanner (`mrkdwnCore`) with a deterministic single-match parser
(`tryLink`) for the pattern described by the regex literal in the source.
-/

namespace SlackNotify

/-- JSON values, as produced by JSON.parse: the possible shapes of the
parsed request body and of the parsed Slack response body. -/
inductive Json where
  | null
  | bool (b : Bool)
  | num (n : Int)
  | str (s : String)
  | arr (elems : List Json)
  | obj (fields : List (String × Json))

/-- JS property access `v.k` on a parsed JSON value: a field of an object
(JSON.parse yields unique keys, so first-match lookup), `none` (undefined)
for a missing key or a non-object. -/
def getField : Json → String → Option Json
  | .obj fields, k => fields.lookup k
  | _, _ => none

/-- JS truthiness of a JSON value: null, false, 0 and the empty string are
falsy, everything else (arrays and objects included) is truthy. -/
def truthy : Json → Bool
  | .null => false
  | .bool b => b
  | .num n => n != 0
  | .str s => s != ""
  | .arr _ => true
  | .obj _ => true

/-- JS truthiness of a possibly-undefined value (`undefined` is falsy). -/
def optTruthy : Option Json → Bool
  | none => false
  | some v => truthy v

/-- JS truthiness of a possibly-undefined string (the channel name from
the path and the token from the environment): absent and empty are falsy. -/
def optStrTruthy : Option String → Bool
  | none => false
  | some s => s != ""

mutual
/-- JS string coercion of a JSON value, as used for property keys:
String(v).  Arrays join their elements with commas (null rendered empty),
objects render as the generic object tag. -/
def jsToPropString : Json → String
  | .null => "null"
  | .bool b => if b then "true" else "false"
  | .num n => toString n
  | .str s => s
  | .arr elems => String.intercalate "," (jsArrStrings elems)
  | .obj _ => "[object Object]"

/-- Element-wise JS string coercion inside an array (null renders empty). -/
def jsArrStrings : List Json → List String
  | [] => []
  | .null :: rest => "" :: jsArrStrings rest
  | v :: rest => jsToPropString v :: jsArrStrings rest
end

/-! ### The Markdown transformer

Source (both variants):

  function markdownToSlackMrkdwn(text: string): string \x7b
    return text.replace(
      /\[([^\]]*)\]\((https?:\/\/[^)]+)\)/g,
      (_, label, url) => `<$\x7burl\x7d|$\x7blabel\x7d>`
    );
  \x7d

The regex is deterministic: each negated character class is bounded by the
very character it excludes, so greedy matching means "up to the first
occurrence of the delimiter", and the optional `s` of `https?` never needs
backtracking (it is taken exactly when the next character is `s`).  The
global replace is the leftmost scan `mrkdwnCore`.
-/

/-- Split a character list at the first occurrence of `stop`: models a
greedy negated character class `[^stop]*` followed by the literal `stop`;
fails when `stop` does not occur. -/
def splitAtChar (stop : Char) : List Char → Option (List Char × List Char)
  | [] => none
  | c :: cs =>
    if c = stop then some ([], cs)
    else
      match splitAtChar stop cs with
      | some (pre, post) => some (c :: pre, post)
      | none => none

/-- The characters of the scheme prefix matched by `http:\/\/`. -/
def httpChars : List Char := ['h', 't', 't', 'p', ':', '/', '/']

/-- The characters of the scheme prefix matched by `https:\/\/`. -/
def httpsChars : List Char := ['h', 't', 't', 'p', 's', ':', '/', '/']

/-- Match the regex fragment `https?:\/\/` at the head of the input,
returning the matched scheme characters and the remainder. -/
def chompScheme : List Char → Option (List Char × List Char)
  | 'h' :: 't' :: 't' :: 'p' :: rest =>
    match rest with
    | 's' :: ':' :: '/' :: '/' :: r => some (httpsChars, r)
    | ':' :: '/' :: '/' :: r => some (httpChars, r)
    | _ => none
  | _ => none

/-- Attempt to match `\[([^\]]*)\]\((https?:\/\/[^)]+)\)` at the head of
the input.  On success, returns the label capture, the url capture
(scheme included) and the remainder after the closing parenthesis. -/
def tryLink : List Char → Option (List Char × List Char × List Char)
  | '[' :: rest =>
    match splitAtChar ']' rest with
    | some (label, rest1) =>
      match rest1 with
      | '(' :: rest2 =>
        match chompScheme rest2 with
        | some (scheme, rest3) =>
          match splitAtChar ')' rest3 with
          | some (tail, rest4) =>
            if tail.isEmpty then none
            else some (label, scheme ++ tail, rest4)
          | none => none
        | none => none
      | _ => none
    | none => none
  | _ => none

theorem splitAtChar_sound (stop : Char) :
    ∀ l pre post, splitAtChar stop l = some (pre, post) →
      l = pre ++ stop :: post ∧ stop ∉ pre := by
  intro l
  induction l with
  | nil => intro pre post h; simp [splitAtChar] at h
  | cons c cs ih =>
    intro pre post h
    by_cases hc : c = stop
    · subst hc
      simp [splitAtChar] at h
      obtain ⟨h1, h2⟩ := h
      subst h1; subst h2
      simp
    · rw [splitAtChar, if_neg hc] at h
      cases hsplit : splitAtChar stop cs with
      | none => rw [hsplit] at h; simp at h
      | some pq =>
        obtain ⟨p, q⟩ := pq
        rw [hsplit] at h
        simp at h
        obtain ⟨h1, h2⟩ := h
        obtain ⟨hl, hnotin⟩ := ih p q hsplit
        subst h1; subst h2
        constructor
        · simp [hl]
        · simp [hnotin]
          intro he
          exact hc he.symm

theorem splitAtChar_complete (stop : Char) :
    ∀ pre post, stop ∉ pre →
      splitAtChar stop (pre ++ stop :: post) = some (pre, post) := by
  intro pre
  induction pre with
  | nil => intro post _; simp [splitAtChar]
  | cons c cs ih =>
    intro post hnotin
    have hc : c ≠ stop := by
      intro he; exact hnotin (by simp [he])
    have hcs : stop ∉ cs := by
      intro hmem; exact hnotin (by simp [hmem])
    simp [splitAtChar, if_neg hc, ih post hcs]

theorem splitAtChar_length {stop : Char} {l pre post : List Char}
    (h : splitAtChar stop l = some (pre, post)) : post.length < l.length := by
  obtain ⟨hl, _⟩ := splitAtChar_sound stop l pre post h
  subst hl
  simp only [List.length_append, List.length_cons]
  omega

theorem chompScheme_sound {l scheme rest : List Char}
    (h : chompScheme l = some (scheme, rest)) :
    (scheme = httpChars ∨ scheme = httpsChars) ∧ l = scheme ++ rest := by
  unfold chompScheme at h
  split at h
  · split at h
    · simp at h
      obtain ⟨h1, h2⟩ := h
      subst h1; subst h2
      simp [httpsChars]
    · simp at h
      obtain ⟨h1, h2⟩ := h
      subst h1; subst h2
      simp [httpChars]
    · simp at h
  · simp at h

theorem chompScheme_http (r : List Char) :
    chompScheme (httpChars ++ r) = some (httpChars, r) := by
  simp [httpChars, chompScheme]

theorem chompScheme_https (r : List Char) :
    chompScheme (httpsChars ++ r) = some (httpsChars, r) := by
  simp [httpsChars, chompScheme]

theorem tryLink_sound {l label url rest : List Char}
    (h : tryLink l = some (label, url, rest)) :
    l = '[' :: (label ++ ']' :: '(' :: (url ++ ')' :: rest)) ∧ ']' ∉ label ∧
      ∃ scheme tail, url = scheme ++ tail ∧
        (scheme = httpChars ∨ scheme = httpsChars) ∧ tail ≠ [] ∧ ')' ∉ tail := by
  unfold tryLink at h
  split at h
  case _ rest0 =>
    split at h
    case _ label0 rest1 hsplit1 =>
      split at h
      case _ rest2 =>
        split at h
        case _ scheme rest3 hscheme =>
          split at h
          case _ tail rest4 hsplit2 =>
            split at h
            · simp at h
            · rename_i hne
              simp at h
              obtain ⟨h1, h2, h3⟩ := h
              subst h1; subst h2; subst h3
              obtain ⟨hsch, hr2⟩ := chompScheme_sound hscheme
              obtain ⟨hr0, hnot1⟩ := splitAtChar_sound _ _ _ _ hsplit1
              obtain ⟨hr3, hnot2⟩ := splitAtChar_sound _ _ _ _ hsplit2
              subst hr3
              subst hr2
              subst hr0
              refine ⟨by simp, hnot1, scheme, tail, rfl, hsch, ?_, hnot2⟩
              intro he
              subst he
              simp at hne
          · simp at h
        · simp at h
      · simp at h
    · simp at h
  · simp at h

theorem tryLink_length {l label url rest : List Char}
    (h : tryLink l = some (label, url, rest)) : rest.length < l.length := by
  obtain ⟨hl, _⟩ := tryLink_sound h
  subst hl
  simp only [List.length_append, List.length_cons]
  omega

theorem tryLink_complete {label scheme tail : List Char} (rest : List Char)
    (hlab : ']' ∉ label) (hsch : scheme = httpChars ∨ scheme = httpsChars)
    (htail : tail ≠ []) (htl : ')' ∉ tail) :
    tryLink ('[' :: (label ++ ']' :: '(' :: (scheme ++ tail ++ ')' :: rest))) =
      some (label, scheme ++ tail, rest) := by
  have h1 : splitAtChar ']' (label ++ ']' :: '(' :: (scheme ++ tail ++ ')' :: rest)) =
      some (label, '(' :: (scheme ++ tail ++ ')' :: rest)) :=
    splitAtChar_complete ']' label _ hlab
  have h2 : chompScheme (scheme ++ tail ++ ')' :: rest) = some (scheme, tail ++ ')' :: rest) := by
    rcases hsch with hs | hs
    · subst hs; rw [List.append_assoc]; exact chompScheme_http _
    · subst hs; rw [List.append_assoc]; exact chompScheme_https _
  have h3 : splitAtChar ')' (tail ++ ')' :: rest) = some (tail, rest) :=
    splitAtChar_complete ')' tail rest htl
  have h4 : tail.isEmpty = false := by
    cases tail with
    | nil => exact absurd rfl htail
    | cons a b => rfl
  rw [tryLink]
  simp only [h1, h2, h3, h4]
  simp

/-- The global leftmost replacement performed by `text.replace(re, fn)` with
the link regex: scan left to right, rewrite each match of `tryLink` to
`<url|label>` and continue after it, copy non-matching characters. -/
def mrkdwnCore (l : List Char) : List Char :=
  match l with
  | [] => []
  | c :: cs =>
    match htl : tryLink (c :: cs) with
    | some (label, url, rest) =>
      '<' :: (url ++ '|' :: (label ++ '>' :: mrkdwnCore rest))
    | none => c :: mrkdwnCore cs
termination_by l.length
decreasing_by
  · exact tryLink_length htl
  · simp

/-- The Markdown transformer from the source: rewrites `[label](url)` links
to Slack's `<url|label>` form, globally, and leaves all other text as is. -/
def markdownToSlackMrkdwn (text : String) : String :=
  String.mk (mrkdwnCore text.data)

theorem mrkdwnCore_nil : mrkdwnCore [] = [] := by
  rw [mrkdwnCore]

theorem mrkdwnCore_cons_some {c : Char} {cs label url rest : List Char}
    (h : tryLink (c :: cs) = some (label, url, rest)) :
    mrkdwnCore (c :: cs) = '<' :: (url ++ '|' :: (label ++ '>' :: mrkdwnCore rest)) := by
  rw [mrkdwnCore]
  split
  · rename_i label2 url2 rest2 heq
    rw [h] at heq
    simp only [Option.some.injEq, Prod.mk.injEq] at heq
    obtain ⟨e1, e2, e3⟩ := heq
    rw [e1, e2, e3]
  · rename_i heq
    rw [h] at heq
    cases heq

theorem mrkdwnCore_cons_none {c : Char} {cs : List Char}
    (h : tryLink (c :: cs) = none) :
    mrkdwnCore (c :: cs) = c :: mrkdwnCore cs := by
  rw [mrkdwnCore]
  split
  · rename_i label2 url2 rest2 heq
    rw [h] at heq
    cases heq
  · rfl

/-- True when the link pattern matches at some position of the input, i.e.
when the regex would find at least one match. -/
def hasLink : List Char → Bool
  | [] => false
  | c :: cs => (tryLink (c :: cs)).isSome || hasLink cs

/-- True when the link pattern matches at no position strictly inside
`pre` of the full input `pre ++ rest` (matches may span into `rest`). -/
def linkFreeBefore : List Char → List Char → Bool
  | [], _ => true
  | c :: pre, rest => !(tryLink (c :: (pre ++ rest))).isSome && linkFreeBefore pre rest

/-- A character list that is a full match of the link regex
`\[([^\]]*)\]\((https?:\/\/[^)]+)\)`, stated declaratively. -/
def IsLinkMatch (m : List Char) : Prop :=
  ∃ label scheme tail,
    m = '[' :: (label ++ ']' :: '(' :: ((scheme ++ tail) ++ [')'])) ∧
    ']' ∉ label ∧ (scheme = httpChars ∨ scheme = httpsChars) ∧
    tail ≠ [] ∧ ')' ∉ tail

/-- A string contains a substring matching the link regex. -/
def ContainsLinkMatch (s : String) : Prop :=
  ∃ pre m post, s.data = pre ++ m ++ post ∧ IsLinkMatch m

theorem hasLink_of_tryLink_isSome :
    ∀ l : List Char, (tryLink l).isSome = true → hasLink l = true := by
  intro l h
  cases l with
  | nil => simp [tryLink] at h
  | cons c cs => simp [hasLink, h]

theorem containsLinkMatch_of_hasLink :
    ∀ s : String, hasLink s.data = true → ContainsLinkMatch s := by
  intro s
  obtain ⟨l⟩ := s
  show hasLink l = true → _
  induction l with
  | nil => intro h; simp [hasLink] at h
  | cons c cs ih =>
    intro h
    rw [hasLink] at h
    rcases Bool.or_eq_true_iff.mp h with h1 | h2
    · rw [Option.isSome_iff_exists] at h1
      obtain ⟨⟨label, url, rest⟩, htry⟩ := h1
      obtain ⟨hl, hnot, scheme, tail, hurl, hsch, htne, htnot⟩ := tryLink_sound htry
      refine ⟨[], '[' :: (label ++ ']' :: '(' :: ((scheme ++ tail) ++ [')'])), rest, ?_, ?_⟩
      · show c :: cs = _
        rw [hl, hurl]
        simp
      · exact ⟨label, scheme, tail, rfl, hnot, hsch, htne, htnot⟩
    · obtain ⟨pre, m, post, hsplit, hm⟩ := ih h2
      refine ⟨c :: pre, m, post, ?_, hm⟩
      show c :: cs = _
      rw [show (cs : List Char) = pre ++ m ++ post from hsplit]
      simp

theorem mrkdwnCore_of_not_hasLink :
    ∀ l : List Char, hasLink l = false → mrkdwnCore l = l := by
  intro l
  induction l with
  | nil => intro _; exact mrkdwnCore_nil
  | cons c cs ih =>
    intro h
    rw [hasLink, Bool.or_eq_false_iff] at h
    obtain ⟨h1, h2⟩ := h
    have h1' : tryLink (c :: cs) = none := by
      cases htry : tryLink (c :: cs) with
      | none => rfl
      | some v => rw [htry] at h1; simp at h1
    rw [mrkdwnCore_cons_none h1', ih h2]

theorem mrkdwnCore_skip :
    ∀ pre rest : List Char, linkFreeBefore pre rest = true →
      mrkdwnCore (pre ++ rest) = pre ++ mrkdwnCore rest := by
  intro pre
  induction pre with
  | nil => intro rest _; simp
  | cons c pre2 ih =>
    intro rest h
    rw [linkFreeBefore, Bool.and_eq_true] at h
    obtain ⟨h1, h2⟩ := h
    have h1' : tryLink (c :: (pre2 ++ rest)) = none := by
      cases htry : tryLink (c :: (pre2 ++ rest)) with
      | none => rfl
      | some v => rw [htry] at h1; simp at h1
    show mrkdwnCore (c :: (pre2 ++ rest)) = _
    rw [mrkdwnCore_cons_none h1', ih rest h2]
    simp

/-! ### The error mapper and the two handler variants -/

/-- The value a property read `table[key]` can yield on the two lookup
literals: an own string entry, a function inherited from Object.prototype
(truthy; JSON.stringify drops a function-valued property), the object
Object.prototype itself (the read of the inherited `__proto__` accessor;
truthy; its enumerable own properties are none, so it stringifies to an
empty object), or undefined (the key is neither own nor inherited). -/
inductive TableValue where
  | str (s : String)
  | fn
  | protoObj
  | undefined

/-- JS truthiness of a table lookup result, as tested by
`if (clientErrors[slackError])`: functions and objects are truthy, a
string is truthy when nonempty, undefined is falsy. -/
def tableValueTruthy : TableValue → Bool
  | .str s => s != ""
  | .fn => true
  | .protoObj => true
  | .undefined => false

/-- The property names every plain object literal inherits from
Object.prototype in V8 (the engine under the host runtime): the standard
methods, the Annex B getter and setter helpers, and the `__proto__`
accessor. -/
def objectProtoKeys : List String :=
  ["constructor", "hasOwnProperty", "isPrototypeOf", "propertyIsEnumerable",
   "toLocaleString", "toString", "valueOf",
   "__defineGetter__", "__defineSetter__", "__lookupGetter__", "__lookupSetter__",
   "__proto__"]

/-- The inherited part of a property read on a plain object literal: keys
of Object.prototype yield a truthy inherited value (the `__proto__`
accessor yields Object.prototype itself, the rest are functions), every
other key yields undefined. -/
def protoValue (key : String) : TableValue :=
  if key = "__proto__" then .protoObj
  else if key ∈ objectProtoKeys then .fn
  else .undefined

/-- The `clientErrors[e]` lookup inside `mapSlackError`: the own string
entries of the table literal, shadowing the Object.prototype chain. -/
def clientErrors (e : String) : TableValue :=
  if e = "channel_not_found" then .str "Channel not found"
  else if e = "not_in_channel" then .str "Bot is not in that channel"
  else protoValue e

/-- The `forbiddenErrors[e]` lookup inside `mapSlackError`: the own string
entries of the table literal, shadowing the Object.prototype chain. -/
def forbiddenErrors (e : String) : TableValue :=
  if e = "invalid_auth" then .str "Invalid Slack token"
  else if e = "not_authed" then .str "Not authenticated"
  else if e = "token_revoked" then .str "Slack token revoked"
  else if e = "account_inactive" then .str "Slack app inactive"
  else if e = "missing_scope" then .str "Bot missing required scope"
  else protoValue e

/-- The normalized tuple returned by `mapSlackError`.  `code` echoes the
raw argument (`code: slackError`), and `message` is the looked-up table
value, which for Object.prototype keys is not a string despite the
source's type annotation. -/
structure MappedError where
  status : Nat
  category : String
  code : Json
  message : TableValue

/-- Strict equality `v === s` of a JSON value against a string literal:
true exactly when the value is that primitive string. -/
def strictEqStr (v : Json) (s : String) : Bool :=
  match v with
  | .str t => t = s
  | _ => false

/-- The richer variant's error mapper.  Its parameter is annotated
`string` in the source but receives `slackResult.error ?? "unknown"`,
which can be any non-nullish JSON value: the table reads coerce it to a
property key (String(v)) and walk the prototype chain, the rate-limit
comparison is strict `===` on the raw value, and the mapped rows echo the
raw value as `code`. -/
def mapSlackError (slackError : Json) : MappedError :=
  if tableValueTruthy (clientErrors (jsToPropString slackError)) then
    ⟨400, "client_error", slackError, clientErrors (jsToPropString slackError)⟩
  else if tableValueTruthy (forbiddenErrors (jsToPropString slackError)) then
    ⟨403, "forbidden", slackError, forbiddenErrors (jsToPropString slackError)⟩
  else if strictEqStr slackError "rate_limited" then
    ⟨429, "rate_limited", .str "rate_limited", .str "Slack rate limit exceeded"⟩
  else
    ⟨500, "internal_error", .str "slack_error", .str "Slack API error"⟩

/-- An HTTP response produced by a handler: status code and the JSON value
serialized into its body. -/
structure Resp where
  status : Nat
  body : Json

/-- What a handler invocation does observably: return a response, or throw
past the handler (an unhandled rejection: `slackResponse.json()` failing
to parse, or reading `.ok` off a Slack result that parsed to null). -/
inductive Outcome where
  | resp (r : Resp)
  | crash

/-- The JSON payload of the one outbound POST to Slack's chat.postMessage:
`channel` is the `#`-prefixed channel name and `text` the transformed
message. -/
structure OutboundPayload where
  channel : String
  text : String

/-- The result of the outbound `fetch`: the promise rejects before any
response (carrying an error whose optional `message` the plain variant
echoes), or a response arrives with an HTTP status and a body whose JSON
parse either fails or yields a value. -/
inductive FetchOutcome where
  | transportError (message : Option String)
  | response (status : Nat) (body : Except Unit Json)

/-- The per-invocation environment of a handler: the `channel_name` path
parameter, the JSON parse of the request body, the SLACK_BOT_TOKEN
environment value, what the outbound fetch would do if issued, and the
(engine-supplied) message of the TypeError raised by `.replace` when the
message value is truthy but not a string — that error is raised while the
fetch arguments are evaluated, inside the `try`, so the catch branch
handles it. -/
structure HandlerInput where
  channelName : Option String
  bodyParse : Except Unit Json
  token : Option String
  fetchOutcome : FetchOutcome
  replaceTypeErrorMessage : String

/-- The `errorResponse` helper of the richer variant: a JSON body
`(category, code, message)` with the given status. -/
def errorResponse (status : Nat) (category code message : String) : Resp :=
  ⟨status, .obj [("category", .str category), ("code", .str code), ("message", .str message)]⟩

/-- The success envelope `JSON.stringify(\x7bstatus:"ok", channel, ts\x7d)`
shared by both variants: when `ts` is undefined, JSON.stringify omits the
key entirely; otherwise the value is passed through verbatim. -/
def successBody (channel : String) (ts : Option Json) : Json :=
  .obj ([("status", .str "ok"), ("channel", .str channel)] ++
    (match ts with
     | none => []
     | some v => [("ts", v)]))

/-- The value on which `mapSlackError` is invoked by the richer variant:
`slackResult.error ?? "unknown"` — the error field verbatim when it is
neither undefined nor null, the string "unknown" otherwise. -/
def slackErrorValue (slackResult : Json) : Json :=
  match getField slackResult "error" with
  | none => .str "unknown"
  | some .null => .str "unknown"
  | some v => v

/-- The response built from a mapped tuple:
`errorResponse(mapped.status, mapped.category, mapped.code,
mapped.message)` followed by JSON.stringify — the raw `code` value is
rendered verbatim, a function-valued message is omitted, and
Object.prototype as message stringifies to an empty object. -/
def mappedErrorResponse (m : MappedError) : Resp :=
  ⟨m.status, .obj ([("category", .str m.category), ("code", m.code)] ++
    (match m.message with
     | .str s => [("message", .str s)]
     | .fn => []
     | .protoObj => [("message", .obj [])]
     | .undefined => []))⟩

/-- The richer variant's handler (src/unnamed/part_000), as a function of
its per-invocation environment.  The second component records the payload
of the outbound call when the fetch was issued, `none` when the handler
returned before reaching it. -/
def richHandler (inp : HandlerInput) : Outcome × Option OutboundPayload :=
  match inp.channelName with
  | none => (.resp (errorResponse 400 "client_error" "missing_channel" "Missing channel_name"), none)
  | some channelName =>
    if channelName = "" then
      (.resp (errorResponse 400 "client_error" "missing_channel" "Missing channel_name"), none)
    else
      match inp.bodyParse with
      | .error _ => (.resp (errorResponse 400 "client_error" "invalid_body" "Invalid JSON body"), none)
      | .ok body =>
        if optTruthy (getField body "message") then
          if optStrTruthy inp.token then
            match getField body "message" with
            | some (.str message) =>
              let payload : OutboundPayload :=
                ⟨"#" ++ channelName, markdownToSlackMrkdwn message⟩
              match inp.fetchOutcome with
              | .transportError _ =>
                (.resp (errorResponse 503 "service_unavailable" "slack_unavailable" "Could not reach Slack"), some payload)
              | .response status bodyParse =>
                match bodyParse with
                | .error _ => (.crash, some payload)
                | .ok slackResult =>
                  if 500 ≤ status then
                    (.resp (errorResponse 503 "service_unavailable" "slack_unavailable" "Slack API is unavailable"), some payload)
                  else
                    match slackResult with
                    | .null => (.crash, some payload)
                    | _ =>
                      if optTruthy (getField slackResult "ok") then
                        (.resp ⟨200, successBody channelName (getField slackResult "ts")⟩, some payload)
                      else
                        (.resp (mappedErrorResponse (mapSlackError (slackErrorValue slackResult))),
                         some payload)
            | _ =>
              (.resp (errorResponse 503 "service_unavailable" "slack_unavailable" "Could not reach Slack"), none)
          else
            (.resp (errorResponse 500 "internal_error" "config_error" "SLACK_BOT_TOKEN not configured"), none)
        else
          (.resp (errorResponse 400 "client_error" "missing_message" "Missing 'message' field"), none)

/-- The plain variant's handler (src/modules/sendSlackNotification.ts).
Error bodies are `\x7berror, details?, slack_error?\x7d`; undefined
`details` and `slack_error` are omitted by JSON.stringify. -/
def plainHandler (inp : HandlerInput) : Outcome × Option OutboundPayload :=
  match inp.channelName with
  | none => (.resp ⟨400, .obj [("error", .str "Missing channel_name")]⟩, none)
  | some channelName =>
    if channelName = "" then
      (.resp ⟨400, .obj [("error", .str "Missing channel_name")]⟩, none)
    else
      match inp.bodyParse with
      | .error _ => (.resp ⟨400, .obj [("error", .str "Invalid JSON body")]⟩, none)
      | .ok body =>
        if optTruthy (getField body "message") then
          if optStrTruthy inp.token then
            match getField body "message" with
            | some (.str message) =>
              let payload : OutboundPayload :=
                ⟨"#" ++ channelName, markdownToSlackMrkdwn message⟩
              match inp.fetchOutcome with
              | .transportError errMessage =>
                (.resp ⟨502, .obj ([("error", .str "Failed to reach Slack API")] ++
                  (match errMessage with
                   | none => []
                   | some m => [("details", .str m)]))⟩, some payload)
              | .response _ bodyParse =>
                match bodyParse with
                | .error _ => (.crash, some payload)
                | .ok slackResult =>
                  match slackResult with
                  | .null => (.crash, some payload)
                  | _ =>
                    if optTruthy (getField slackResult "ok") then
                      (.resp ⟨200, successBody channelName (getField slackResult "ts")⟩, some payload)
                    else
                      (.resp ⟨500, .obj ([("error", .str "Slack API error")] ++
                        (match getField slackResult "error" with
                         | none => []
                         | some v => [("slack_error", v)]))⟩, some payload)
            | _ =>
              (.resp ⟨502, .obj [("error", .str "Failed to reach Slack API"),
                ("details", .str inp.replaceTypeErrorMessage)]⟩, none)
          else
            (.resp ⟨500, .obj [("error", .str "SLACK_BOT_TOKEN not configured")]⟩, none)
        else
          (.resp ⟨400, .obj [("error", .str "Missing 'message' field")]⟩, none)

/-! ### Lemmas connecting the scanner to the declarative pattern -/

theorem hasLink_append_of_isSome :
    ∀ pre l : List Char, (tryLink l).isSome = true → hasLink (pre ++ l) = true := by
  intro pre
  induction pre with
  | nil => intro l h; exact hasLink_of_tryLink_isSome l h
  | cons c pre2 ih =>
    intro l h
    show hasLink (c :: (pre2 ++ l)) = true
    rw [hasLink, ih l h, Bool.or_true]

theorem hasLink_of_containsLinkMatch :
    ∀ s : String, ContainsLinkMatch s → hasLink s.data = true := by
  intro s hc
  obtain ⟨pre, m, post, hsplit, label, scheme, tail, hm, hnot, hsch, htne, htl⟩ := hc
  rw [hsplit]
  subst hm
  rw [List.append_assoc]
  apply hasLink_append_of_isSome
  have : '[' :: (label ++ ']' :: '(' :: ((scheme ++ tail) ++ [')'])) ++ post =
      '[' :: (label ++ ']' :: '(' :: (scheme ++ tail ++ ')' :: post)) := by
    simp
  rw [this, tryLink_complete post hnot hsch htne htl]
  rfl

/-- Replace one link whose match starts right after a prefix in which the
regex matches nowhere: the scanner copies the prefix, rewrites the match to
`<url|label>` and continues on the remainder. -/
theorem mrkdwn_replace (pre label scheme tail post : List Char)
    (hlab : ']' ∉ label) (hsch : scheme = httpChars ∨ scheme = httpsChars)
    (htne : tail ≠ []) (htl : ')' ∉ tail)
    (hfree : linkFreeBefore pre ('[' :: (label ++ ']' :: '(' :: (scheme ++ tail ++ ')' :: post))) = true) :
    markdownToSlackMrkdwn (String.mk (pre ++ '[' :: (label ++ ']' :: '(' :: (scheme ++ tail ++ ')' :: post)))) =
      String.mk (pre ++ '<' :: ((scheme ++ tail) ++ '|' :: (label ++ '>' :: mrkdwnCore post))) := by
  show String.mk (mrkdwnCore _) = _
  rw [mrkdwnCore_skip pre _ hfree,
    mrkdwnCore_cons_some (tryLink_complete post hlab hsch htne htl)]

/-! ### The claims -/

/-- C2: the Markdown transformer replaces every occurrence of the pattern
`[label](url)` — label a run of characters without `]`, url `http://` or
`https://` followed by a nonempty run without `)` — with `<url|label>`,
globally in leftmost order (each match starts where no earlier match is in
progress); in particular the input "See [docs](https://example.com/a) now"
produces exactly "See <https://example.com/a|docs> now". -/
theorem C2_markdown_link_global_replace :
    (∀ pre label scheme tail post : List Char,
      ']' ∉ label → (scheme = httpChars ∨ scheme = httpsChars) →
      tail ≠ [] → ')' ∉ tail →
      linkFreeBefore pre ('[' :: (label ++ ']' :: '(' :: (scheme ++ tail ++ ')' :: post))) = true →
      markdownToSlackMrkdwn (String.mk (pre ++ '[' :: (label ++ ']' :: '(' :: (scheme ++ tail ++ ')' :: post)))) =
        String.mk (pre ++ '<' :: ((scheme ++ tail) ++ '|' :: (label ++ '>' :: mrkdwnCore post)))) ∧
    markdownToSlackMrkdwn "See [docs](https://example.com/a) now" =
      "See <https://example.com/a|docs> now" := by
  refine ⟨mrkdwn_replace, ?_⟩
  show String.mk (mrkdwnCore ("See ".data ++ "[docs](https://example.com/a) now".data)) = _
  rw [mrkdwnCore_skip "See ".data _ (by decide)]
  rw [mrkdwnCore_cons_some (show tryLink ("[docs](https://example.com/a) now".data) =
    some ("docs".data, "https://example.com/a".data, " now".data) by decide)]
  rw [mrkdwnCore_of_not_hasLink " now".data (by decide)]
  decide

/-- Witness for C2: the general replacement applied at the spec's concrete
example, every hypothesis discharged by evaluation. -/
theorem C2_markdown_link_global_replace_witness :
    markdownToSlackMrkdwn (String.mk ("See ".data ++ '[' :: ("docs".data ++ ']' :: '(' ::
        (httpsChars ++ "example.com/a".data ++ ')' :: " now".data)))) =
      String.mk ("See ".data ++ '<' :: ((httpsChars ++ "example.com/a".data) ++ '|' ::
        ("docs".data ++ '>' :: mrkdwnCore " now".data))) :=
  C2_markdown_link_global_replace.1 "See ".data "docs".data httpsChars "example.com/a".data
    " now".data (by decide) (Or.inr rfl) (by decide) (by decide) (by decide)

/-- C9: on any string containing no substring matching the link pattern —
bold, italic, strikethrough, inline code and fenced blocks included — the
Markdown transformer is the identity, hence idempotent there. -/
theorem C9_no_link_identity :
    ∀ s : String, ¬ ContainsLinkMatch s →
      markdownToSlackMrkdwn s = s ∧
      markdownToSlackMrkdwn (markdownToSlackMrkdwn s) = markdownToSlackMrkdwn s := by
  intro s hno
  have hfalse : hasLink s.data = false := by
    cases hl : hasLink s.data with
    | false => rfl
    | true => exact absurd (containsLinkMatch_of_hasLink s hl) hno
  have hid : markdownToSlackMrkdwn s = s := by
    show String.mk (mrkdwnCore s.data) = s
    rw [mrkdwnCore_of_not_hasLink s.data hfalse]
  exact ⟨hid, by rw [hid]; exact hid⟩

/-- Witness for C9: a string exercising bold, italic, strikethrough and
inline code comes back unchanged. -/
theorem C9_no_link_identity_witness :
    markdownToSlackMrkdwn "*bold* _italic_ ~~strike~~ `code` plain" =
      "*bold* _italic_ ~~strike~~ `code` plain" := by
  have hno : ¬ ContainsLinkMatch "*bold* _italic_ ~~strike~~ `code` plain" := by
    intro hc
    have h := hasLink_of_containsLinkMatch _ hc
    rw [show hasLink ("*bold* _italic_ ~~strike~~ `code` plain").data = false from by decide] at h
    cases h
  exact (C9_no_link_identity _ hno).1

/-- Counterexample to C10 as stated: the url "http://" begins with
`http://` and contains no `)`, yet `[](http://)` is left untouched — the
regex demands at least one url character after the scheme. -/
theorem C10_empty_label_counterexample :
    markdownToSlackMrkdwn "[](http://)" = "[](http://)" ∧
    markdownToSlackMrkdwn "[](http://)" ≠ "<http://|>" := by
  have h : markdownToSlackMrkdwn "[](http://)" = "[](http://)" := by
    show String.mk (mrkdwnCore ("[](http://)").data) = _
    rw [mrkdwnCore_of_not_hasLink _ (by decide)]
  refine ⟨h, ?_⟩
  rw [h]
  decide

/-- C10 (amended): the label capture admits the empty run — for every url
of the form `http://` or `https://` followed by a nonempty run of
characters without `)`, an occurrence of `[](url)` at which the leftmost
scan arrives (no earlier match overlapping it) is rewritten to `<url|>`. -/
theorem C10_empty_label :
    ∀ pre scheme tail post : List Char,
      (scheme = httpChars ∨ scheme = httpsChars) → tail ≠ [] → ')' ∉ tail →
      linkFreeBefore pre ('[' :: (']' :: '(' :: (scheme ++ tail ++ ')' :: post))) = true →
      markdownToSlackMrkdwn (String.mk (pre ++ '[' :: (']' :: '(' :: (scheme ++ tail ++ ')' :: post)))) =
        String.mk (pre ++ '<' :: ((scheme ++ tail) ++ '|' :: ('>' :: mrkdwnCore post))) := by
  intro pre scheme tail post hsch htne htl hfree
  have h := mrkdwn_replace pre [] scheme tail post (by simp) hsch htne htl hfree
  simpa using h

/-- Witness for C10: `[](http://x)` becomes `<http://x|>`. -/
theorem C10_empty_label_witness :
    markdownToSlackMrkdwn (String.mk ([] ++ '[' :: (']' :: '(' ::
        (httpChars ++ "x".data ++ ')' :: [])))) =
      String.mk ([] ++ '<' :: ((httpChars ++ "x".data) ++ '|' :: ('>' :: mrkdwnCore []))) :=
  C10_empty_label [] httpChars "x".data [] (Or.inl rfl) (by decide) (by decide) (by decide)

/-- Counterexample to C1 as stated: "toString" is not one of the eight
mapped codes, yet the source's `clientErrors["toString"]` finds the
truthy method inherited from Object.prototype, so the mapper returns
status 400, category client_error, code "toString" and a function-valued
message (which JSON.stringify drops from the response body) — not the
claimed (500, internal_error, slack_error, "Slack API error") row. -/
theorem C1_mapSlackError_table_counterexample :
    mapSlackError (Json.str "toString") =
      ⟨400, "client_error", Json.str "toString", TableValue.fn⟩ ∧
    (mapSlackError (Json.str "toString")).status ≠ 500 ∧
    (mapSlackError (Json.str "toString")).category ≠ "internal_error" ∧
    mappedErrorResponse (mapSlackError (Json.str "toString")) =
      ⟨400, Json.obj [("category", Json.str "client_error"),
        ("code", Json.str "toString")]⟩ := by
  refine ⟨rfl, ?_, ?_, rfl⟩
  · intro h
    rw [show mapSlackError (Json.str "toString") =
      ⟨400, "client_error", Json.str "toString", TableValue.fn⟩ from rfl] at h
    exact absurd h (by decide)
  · intro h
    rw [show mapSlackError (Json.str "toString") =
      ⟨400, "client_error", Json.str "toString", TableValue.fn⟩ from rfl] at h
    exact absurd h (by decide)

/-- C1 (amended): the error mapper returns the tabulated tuples for the
eight mapped codes with `code` equal to the Slack error code itself, and
(500, internal_error, slack_error, "Slack API error") for any other code
that is not an Object.prototype property name — including the "unknown"
placeholder an absent error field coalesces to; a code naming an
Object.prototype member instead finds a truthy inherited value in the
first table and returns status 400, category client_error, code the key
itself. -/
theorem C1_mapSlackError_table :
    mapSlackError (Json.str "channel_not_found") =
      ⟨400, "client_error", Json.str "channel_not_found", .str "Channel not found"⟩ ∧
    mapSlackError (Json.str "not_in_channel") =
      ⟨400, "client_error", Json.str "not_in_channel", .str "Bot is not in that channel"⟩ ∧
    mapSlackError (Json.str "invalid_auth") =
      ⟨403, "forbidden", Json.str "invalid_auth", .str "Invalid Slack token"⟩ ∧
    mapSlackError (Json.str "not_authed") =
      ⟨403, "forbidden", Json.str "not_authed", .str "Not authenticated"⟩ ∧
    mapSlackError (Json.str "token_revoked") =
      ⟨403, "forbidden", Json.str "token_revoked", .str "Slack token revoked"⟩ ∧
    mapSlackError (Json.str "account_inactive") =
      ⟨403, "forbidden", Json.str "account_inactive", .str "Slack app inactive"⟩ ∧
    mapSlackError (Json.str "missing_scope") =
      ⟨403, "forbidden", Json.str "missing_scope", .str "Bot missing required scope"⟩ ∧
    mapSlackError (Json.str "rate_limited") =
      ⟨429, "rate_limited", Json.str "rate_limited", .str "Slack rate limit exceeded"⟩ ∧
    (∀ e : String,
      e ∉ (["channel_not_found", "not_in_channel", "invalid_auth", "not_authed",
        "token_revoked", "account_inactive", "missing_scope", "rate_limited"] : List String) →
      e ∉ objectProtoKeys →
      mapSlackError (Json.str e) =
        ⟨500, "internal_error", Json.str "slack_error", .str "Slack API error"⟩) ∧
    (∀ e : String, e ∈ objectProtoKeys →
      (mapSlackError (Json.str e)).status = 400 ∧
      (mapSlackError (Json.str e)).category = "client_error" ∧
      (mapSlackError (Json.str e)).code = Json.str e) ∧
    (∀ slackResult : Json, getField slackResult "error" = none →
      mapSlackError (slackErrorValue slackResult) =
        ⟨500, "internal_error", Json.str "slack_error", .str "Slack API error"⟩) := by
  refine ⟨rfl, rfl, rfl, rfl, rfl, rfl, rfl, rfl, ?_, ?_, ?_⟩
  · intro e he hp
    simp only [List.mem_cons, List.not_mem_nil, or_false, not_or] at he
    obtain ⟨h1, h2, h3, h4, h5, h6, h7, h8⟩ := he
    have hpp : e ≠ "__proto__" := by
      intro heq
      exact hp (heq ▸ (by decide : "__proto__" ∈ objectProtoKeys))
    simp [mapSlackError, clientErrors, forbiddenErrors, protoValue, strictEqStr,
      jsToPropString, tableValueTruthy, h1, h2, h3, h4, h5, h6, h7, h8, hp, hpp]
  · intro e he
    simp only [objectProtoKeys, List.mem_cons, List.not_mem_nil, or_false] at he
    rcases he with rfl | rfl | rfl | rfl | rfl | rfl | rfl | rfl | rfl | rfl | rfl | rfl
    all_goals exact ⟨rfl, rfl, rfl⟩
  · intro slackResult h
    have hcode : slackErrorValue slackResult = Json.str "unknown" := by
      unfold slackErrorValue
      rw [h]
    rw [hcode]
    rfl

/-- Witness for C1: the default row at an unmapped non-prototype code and
at a result whose error field is absent, and the 400 client_error row at
the prototype key "toString". -/
theorem C1_mapSlackError_table_witness :
    mapSlackError (Json.str "some_unmapped_code") =
      ⟨500, "internal_error", Json.str "slack_error", .str "Slack API error"⟩ ∧
    (mapSlackError (Json.str "toString")).status = 400 ∧
    mapSlackError (slackErrorValue (Json.obj [("ok", Json.bool false)])) =
      ⟨500, "internal_error", Json.str "slack_error", .str "Slack API error"⟩ :=
  ⟨C1_mapSlackError_table.2.2.2.2.2.2.2.2.1 "some_unmapped_code" (by decide) (by decide),
   (C1_mapSlackError_table.2.2.2.2.2.2.2.2.2.1 "toString" (by decide)).1,
   C1_mapSlackError_table.2.2.2.2.2.2.2.2.2.2 (Json.obj [("ok", Json.bool false)]) rfl⟩

/-- C3: when the Slack response arrives with HTTP status at least 500 and
its body parses, the richer variant answers 503 service_unavailable /
slack_unavailable whatever the body says — the `ok` check is never
reached — while the plain variant, which has no status check, answers
the success envelope for such a response with body ok:true. -/
theorem C3_status_band_503 :
    ∀ (c : String) (body : Json) (tok msgText : String) (st : Nat) (slackResult : Json)
      (rm : String),
      c ≠ "" → getField body "message" = some (.str msgText) → msgText ≠ "" →
      tok ≠ "" → 500 ≤ st →
      richHandler ⟨some c, .ok body, some tok, .response st (.ok slackResult), rm⟩ =
        (.resp (errorResponse 503 "service_unavailable" "slack_unavailable" "Slack API is unavailable"),
         some ⟨"#" ++ c, markdownToSlackMrkdwn msgText⟩) ∧
      plainHandler ⟨some c, .ok body, some tok,
          .response st (.ok (Json.obj [("ok", Json.bool true)])), rm⟩ =
        (.resp ⟨200, successBody c (getField (Json.obj [("ok", Json.bool true)]) "ts")⟩,
         some ⟨"#" ++ c, markdownToSlackMrkdwn msgText⟩) := by
  intro c body tok msgText st slackResult rm hc hm hms htok hst
  constructor
  · simp [richHandler, hm, optTruthy, truthy, optStrTruthy, hc, hms, htok, hst]
  · have hok : getField (Json.obj [("ok", Json.bool true)]) "ok" = some (.bool true) := rfl
    simp [plainHandler, hm, optTruthy, truthy, optStrTruthy, hc, hms, htok, hok]

/-- Witness for C3: a 502 Slack response; the richer variant answers 503
regardless of the ok:true body, the plain variant answers the success
envelope. -/
theorem C3_status_band_503_witness :
    richHandler ⟨some "general", .ok (Json.obj [("message", Json.str "hi")]), some "xoxb",
        .response 502 (.ok (Json.obj [("ok", Json.bool true)])), "tm"⟩ =
      (.resp (errorResponse 503 "service_unavailable" "slack_unavailable" "Slack API is unavailable"),
       some ⟨"#" ++ "general", markdownToSlackMrkdwn "hi"⟩) ∧
    plainHandler ⟨some "general", .ok (Json.obj [("message", Json.str "hi")]), some "xoxb",
        .response 502 (.ok (Json.obj [("ok", Json.bool true)])), "tm"⟩ =
      (.resp ⟨200, successBody "general" (getField (Json.obj [("ok", Json.bool true)]) "ts")⟩,
       some ⟨"#" ++ "general", markdownToSlackMrkdwn "hi"⟩) :=
  C3_status_band_503 "general" (Json.obj [("message", Json.str "hi")]) "xoxb" "hi" 502
    (Json.obj [("ok", Json.bool true)]) "tm" (by decide) rfl (by decide) (by decide) (by decide)

/-- C4: when the outbound fetch throws before any response, both handlers
return a normalized error instead of crashing: the richer variant 503
service_unavailable / slack_unavailable, the plain variant 502 with a
details field carrying the thrown error's message. -/
theorem C4_transport_failure :
    ∀ (c : String) (body : Json) (tok msgText : String) (errMessage : Option String)
      (d rm : String),
      c ≠ "" → getField body "message" = some (.str msgText) → msgText ≠ "" → tok ≠ "" →
      richHandler ⟨some c, .ok body, some tok, .transportError errMessage, rm⟩ =
        (.resp (errorResponse 503 "service_unavailable" "slack_unavailable" "Could not reach Slack"),
         some ⟨"#" ++ c, markdownToSlackMrkdwn msgText⟩) ∧
      plainHandler ⟨some c, .ok body, some tok, .transportError (some d), rm⟩ =
        (.resp ⟨502, .obj [("error", .str "Failed to reach Slack API"), ("details", .str d)]⟩,
         some ⟨"#" ++ c, markdownToSlackMrkdwn msgText⟩) := by
  intro c body tok msgText errMessage d rm hc hm hms htok
  constructor
  · simp [richHandler, hm, optTruthy, truthy, optStrTruthy, hc, hms, htok]
  · simp [plainHandler, hm, optTruthy, truthy, optStrTruthy, hc, hms, htok]

/-- Witness for C4: a concrete network failure. -/
theorem C4_transport_failure_witness :
    richHandler ⟨some "general", .ok (Json.obj [("message", Json.str "hi")]), some "xoxb",
        .transportError (some "getaddrinfo ENOTFOUND slack.com"), "tm"⟩ =
      (.resp (errorResponse 503 "service_unavailable" "slack_unavailable" "Could not reach Slack"),
       some ⟨"#" ++ "general", markdownToSlackMrkdwn "hi"⟩) ∧
    plainHandler ⟨some "general", .ok (Json.obj [("message", Json.str "hi")]), some "xoxb",
        .transportError (some "getaddrinfo ENOTFOUND slack.com"), "tm"⟩ =
      (.resp ⟨502, .obj [("error", .str "Failed to reach Slack API"),
          ("details", .str "getaddrinfo ENOTFOUND slack.com")]⟩,
       some ⟨"#" ++ "general", markdownToSlackMrkdwn "hi"⟩) :=
  C4_transport_failure "general" (Json.obj [("message", Json.str "hi")]) "xoxb" "hi"
    (some "getaddrinfo ENOTFOUND slack.com") "getaddrinfo ENOTFOUND slack.com" "tm"
    (by decide) rfl (by decide) (by decide)

/-- C5: on a Slack result with ok:true (HTTP status below the 5xx band for
the richer variant), both variants answer HTTP 200 with the success
envelope: status "ok", the caller-supplied channel identifier without the
outbound `#` prefix, and the ts field verbatim from the Slack result —
omitted when Slack omitted it, never synthesized. -/
theorem C5_success_envelope :
    ∀ (c : String) (body : Json) (tok msgText : String) (st : Nat) (slackResult : Json)
      (rm : String),
      c ≠ "" → getField body "message" = some (.str msgText) → msgText ≠ "" →
      tok ≠ "" → st < 500 → getField slackResult "ok" = some (.bool true) →
      richHandler ⟨some c, .ok body, some tok, .response st (.ok slackResult), rm⟩ =
        (.resp ⟨200, successBody c (getField slackResult "ts")⟩,
         some ⟨"#" ++ c, markdownToSlackMrkdwn msgText⟩) ∧
      plainHandler ⟨some c, .ok body, some tok, .response st (.ok slackResult), rm⟩ =
        (.resp ⟨200, successBody c (getField slackResult "ts")⟩,
         some ⟨"#" ++ c, markdownToSlackMrkdwn msgText⟩) ∧
      successBody c (getField slackResult "ts") =
        .obj ([("status", .str "ok"), ("channel", .str c)] ++
          (match getField slackResult "ts" with
           | none => []
           | some v => [("ts", v)])) := by
  intro c body tok msgText st slackResult rm hc hm hms htok hst hok
  have hstn : ¬ 500 ≤ st := by omega
  cases slackResult with
  | null => simp [getField] at hok
  | bool b => simp [getField] at hok
  | num n => simp [getField] at hok
  | str s => simp [getField] at hok
  | arr es => simp [getField] at hok
  | obj fields =>
    refine ⟨?_, ?_, rfl⟩
    · simp [richHandler, hm, optTruthy, truthy, optStrTruthy, hc, hms, htok, hstn, hok]
    · simp [plainHandler, hm, optTruthy, truthy, optStrTruthy, hc, hms, htok, hok]

/-- Witness for C5: the spec's example — ok:true with ts "1234.5678" and
channel identifier "general" yields the envelope with channel "general"
and that ts, while the outbound payload used "#general". -/
theorem C5_success_envelope_witness :
    richHandler ⟨some "general", .ok (Json.obj [("message", Json.str "hi")]), some "xoxb",
        .response 200 (.ok (Json.obj [("ok", Json.bool true), ("ts", Json.str "1234.5678")])), "tm"⟩ =
      (.resp ⟨200, successBody "general"
          (getField (Json.obj [("ok", Json.bool true), ("ts", Json.str "1234.5678")]) "ts")⟩,
       some ⟨"#" ++ "general", markdownToSlackMrkdwn "hi"⟩) ∧
    successBody "general"
        (getField (Json.obj [("ok", Json.bool true), ("ts", Json.str "1234.5678")]) "ts") =
      .obj [("status", .str "ok"), ("channel", .str "general"), ("ts", Json.str "1234.5678")] := by
  have h := C5_success_envelope "general" (Json.obj [("message", Json.str "hi")]) "xoxb" "hi"
    200 (Json.obj [("ok", Json.bool true), ("ts", Json.str "1234.5678")]) "tm"
    (by decide) rfl (by decide) (by decide) (by decide) rfl
  exact ⟨h.1, rfl⟩

/-- C6: with the channel identifier absent or empty, both handlers answer
HTTP 400 missing_channel whatever the body parse, token and fetch would
have been, and no outbound call is made. -/
theorem C6_missing_channel :
    ∀ (bodyParse : Except Unit Json) (tok : Option String) (fo : FetchOutcome) (rm : String),
      richHandler ⟨none, bodyParse, tok, fo, rm⟩ =
        (.resp (errorResponse 400 "client_error" "missing_channel" "Missing channel_name"), none) ∧
      richHandler ⟨some "", bodyParse, tok, fo, rm⟩ =
        (.resp (errorResponse 400 "client_error" "missing_channel" "Missing channel_name"), none) ∧
      plainHandler ⟨none, bodyParse, tok, fo, rm⟩ =
        (.resp ⟨400, .obj [("error", .str "Missing channel_name")]⟩, none) ∧
      plainHandler ⟨some "", bodyParse, tok, fo, rm⟩ =
        (.resp ⟨400, .obj [("error", .str "Missing channel_name")]⟩, none) := by
  intro bodyParse tok fo rm
  exact ⟨rfl, rfl, rfl, rfl⟩

/-- C7: once the body parses to a value whose message field is falsy —
absent, empty string, null, 0 or false — both handlers answer HTTP 400
missing_message and the fetch is never issued; the listed values are
exactly falsy. -/
theorem C7_missing_message :
    (∀ (c : String) (body : Json) (tok : Option String) (fo : FetchOutcome) (rm : String),
      c ≠ "" → optTruthy (getField body "message") = false →
      richHandler ⟨some c, .ok body, tok, fo, rm⟩ =
        (.resp (errorResponse 400 "client_error" "missing_message" "Missing 'message' field"), none) ∧
      plainHandler ⟨some c, .ok body, tok, fo, rm⟩ =
        (.resp ⟨400, .obj [("error", .str "Missing 'message' field")]⟩, none)) ∧
    optTruthy none = false ∧ truthy (.str "") = false ∧ truthy .null = false ∧
    truthy (.num 0) = false ∧ truthy (.bool false) = false := by
  refine ⟨?_, rfl, rfl, rfl, rfl, rfl⟩
  intro c body tok fo rm hc hfalsy
  constructor
  · simp [richHandler, hc, hfalsy]
  · simp [plainHandler, hc, hfalsy]

/-- Witness for C7: a body without a message field is rejected with 400
missing_message and no outbound call. -/
theorem C7_missing_message_witness :
    richHandler ⟨some "general", .ok (Json.obj [("note", Json.str "hi")]), some "xoxb",
        .transportError none, "tm"⟩ =
      (.resp (errorResponse 400 "client_error" "missing_message" "Missing 'message' field"), none) ∧
    plainHandler ⟨some "general", .ok (Json.obj [("note", Json.str "hi")]), some "xoxb",
        .transportError none, "tm"⟩ =
      (.resp ⟨400, .obj [("error", .str "Missing 'message' field")]⟩, none) :=
  C7_missing_message.1 "general" (Json.obj [("note", Json.str "hi")]) (some "xoxb")
    (.transportError none) "tm" (by decide) rfl

/-- C8: on a valid request (channel present, body parsed, message truthy)
with the bot token unset or empty, both handlers answer HTTP 500
config_error and the fetch to Slack is never issued. -/
theorem C8_config_error :
    ∀ (c : String) (body : Json) (tok : Option String) (fo : FetchOutcome) (rm : String),
      c ≠ "" → optTruthy (getField body "message") = true →
      (tok = none ∨ tok = some "") →
      richHandler ⟨some c, .ok body, tok, fo, rm⟩ =
        (.resp (errorResponse 500 "internal_error" "config_error" "SLACK_BOT_TOKEN not configured"), none) ∧
      plainHandler ⟨some c, .ok body, tok, fo, rm⟩ =
        (.resp ⟨500, .obj [("error", .str "SLACK_BOT_TOKEN not configured")]⟩, none) := by
  intro c body tok fo rm hc hmsg htok
  have htok2 : optStrTruthy tok = false := by
    rcases htok with h | h
    · rw [h]; rfl
    · rw [h]; rfl
  constructor
  · simp [richHandler, hc, hmsg, htok2]
  · simp [plainHandler, hc, hmsg, htok2]

/-- Witness for C8: an unset token on an otherwise valid request. -/
theorem C8_config_error_witness :
    richHandler ⟨some "general", .ok (Json.obj [("message", Json.str "hi")]), none,
        .transportError none, "tm"⟩ =
      (.resp (errorResponse 500 "internal_error" "config_error" "SLACK_BOT_TOKEN not configured"), none) ∧
    plainHandler ⟨some "general", .ok (Json.obj [("message", Json.str "hi")]), none,
        .transportError none, "tm"⟩ =
      (.resp ⟨500, .obj [("error", .str "SLACK_BOT_TOKEN not configured")]⟩, none) :=
  C8_config_error "general" (Json.obj [("message", Json.str "hi")]) none
    (.transportError none) "tm" (by decide) rfl (Or.inl rfl)
